import Mathlib

/-!
Verification development for the four-stage financial analysis pipeline
(`src/nodes.py`) and the orchestration confidence aggregator
(`src/agents/orchestrator.py`).

Python scalar values flowing through the pipeline state are modelled by
`PyV`: a rational number (Python int/float), the IEEE special values
nan / +inf / -inf, or a non-numeric value (modelled as a string, e.g. the
"N/A" sentinel).  Python comparisons guarded by `isinstance(x, (int, float))`
are modelled by `numLT` / `numGE`, which are false on non-numeric values and
follow IEEE semantics on nan / inf.  Exact rational arithmetic stands in for
Python floating point; string formatting of numbers (Python `:.2f` / `:.2%`)
is abstracted by a canonical rendering, and quote characters inside message
texts are elided — no claim depends on either.
-/

namespace FIS

/-- A Python scalar value as it appears in the pipeline state dictionaries. -/
inductive PyV where
  | num (q : ℚ)
  | nan
  | inf
  | ninf
  | str (s : String)
  deriving DecidableEq, Repr

/-- `isinstance(v, (int, float))`: nan and the infinities are floats. -/
def PyV.isNum : PyV → Bool
  | .str _ => false
  | _ => true

/-- `isinstance(v, (int, float)) and v < c` with IEEE comparison semantics. -/
def numLT : PyV → ℚ → Bool
  | .num q, c => decide (q < c)
  | .ninf, _ => true
  | _, _ => false

/-- `isinstance(v, (int, float)) and v >= c` with IEEE comparison semantics. -/
def numGE : PyV → ℚ → Bool
  | .num q, c => decide (c ≤ q)
  | .inf, _ => true
  | _, _ => false

/-- The metric values read by `generate_offline_summary` (src/nodes.py
lines 208-216), after the `.get` defaults have been applied:
a missing `rsi_14` is `50.0`, a missing `pe_ratio` is the string `N/A`,
missing risk metrics are `0.0`, a missing trend is `Unknown`.
(`pe` and `sharpe` abbreviate the source names `pe_ratio`, `sharpe_ratio`.) -/
structure OfflineInputs where
  trend : String
  rsi : PyV
  pe : PyV
  current_drawdown : PyV
  volatility : PyV
  sharpe : PyV
  deriving DecidableEq, Repr

/-- Python `str.lower()`, as an explicit character map (ASCII suffices for
the trend labels produced by the pipeline). -/
def lowerStr (s : String) : String := String.mk (s.data.map Char.toLower)

/-- `is_bullish = trend.lower() == "bullish"` (src/nodes.py line 229). -/
def is_bullish (trend : String) : Bool := lowerStr trend == "bullish"

/-- `rsi_ok = isinstance(rsi, (int, float)) and rsi < 70` (line 230). -/
def rsi_ok (rsi : PyV) : Bool := numLT rsi 70

/-- `sharpe_positive = isinstance(sharpe_ratio, (int, float)) and
sharpe_ratio >= 0.5` (line 234). -/
def sharpe_positive (sh : PyV) : Bool := numGE sh (1/2)

/-- `drawdown_severe = isinstance(current_drawdown, (int, float)) and
current_drawdown < -0.15` (line 235). -/
def drawdown_severe (cd : PyV) : Bool := numLT cd (-(3/20))

/-- `pe_numeric = float(pe_ratio) if pe_ratio != "N/A" and
isinstance(pe_ratio, (int, float)) else None` (lines 220-222), followed by
`pe_reasonable = pe_numeric is None or pe_numeric < 30` (line 236).
Any non-numeric value yields `pe_numeric = None`; the float nan compares
false against 30. -/
def pe_reasonable : PyV → Bool
  | .str _ => true
  | v => numLT v 30

/-- `pe_numeric is not None`: the P/E ratio is available as a float. -/
def peAvailable : PyV → Bool
  | .str _ => false
  | _ => true

/-- The deterministic decision framework of `generate_offline_summary`
(src/nodes.py lines 238-244): BUY on the first guard, SELL on the second,
HOLD by default. -/
def offlineRecommendation (i : OfflineInputs) : String :=
  if is_bullish i.trend && rsi_ok i.rsi &&
      (pe_reasonable i.pe || sharpe_positive i.sharpe) then "BUY"
  else if !is_bullish i.trend &&
      (!pe_reasonable i.pe || drawdown_severe i.current_drawdown) then "SELL"
  else "HOLD"

/-- Modelled from the spec (section 4.4): the spec-side `rsi_ok`, which
treats a missing or non-numeric RSI as ok = true (with neutral default 50),
unlike the code, which requires `isinstance(rsi, (int, float))`. -/
def rsi_ok_spec (rsi : PyV) : Bool :=
  match rsi with
  | .str _ => true
  | v => numLT v 70

/-- Modelled from the spec (section 4.4): the decision framework as the spec
words it, identical to `offlineRecommendation` except that it uses
`rsi_ok_spec`. -/
def specRecommendation (i : OfflineInputs) : String :=
  if is_bullish i.trend && rsi_ok_spec i.rsi &&
      (pe_reasonable i.pe || sharpe_positive i.sharpe) then "BUY"
  else if !is_bullish i.trend &&
      (!pe_reasonable i.pe || drawdown_severe i.current_drawdown) then "SELL"
  else "HOLD"

/-- The risk level classification of `generate_offline_summary`
(src/nodes.py lines 246-256): ordered rules, first match wins; each guard
carries its own `isinstance` checks. -/
def riskLevel (vol cd sh : PyV) : String :=
  if numGE vol (7/20) then "High"
  else if numLT cd (-(3/10)) then "Extreme"
  else if numLT vol (1/5) && numGE sh (7/10) then "Low"
  else if numLT vol (1/4) then "Medium"
  else "Medium"

/-- Unfolds the risk classifier on fully numeric inputs to plain rational
comparisons. -/
lemma riskLevel_num (v cd sh : ℚ) :
    riskLevel (.num v) (.num cd) (.num sh) =
      if 7/20 ≤ v then "High"
      else if cd < -(3/10) then "Extreme"
      else if v < 1/5 ∧ 7/10 ≤ sh then "Low"
      else if v < 1/4 then "Medium" else "Medium" := by
  simp [riskLevel, numGE, numLT, decide_eq_true_eq]

/-- C1 counterexample: on a state with a Bullish trend, a non-numeric RSI and
no P/E ratio, the code returns HOLD (the `isinstance` guard makes `rsi_ok`
false for a non-numeric RSI), while the claim, which treats a non-numeric RSI
as ok = true, predicts BUY. -/
theorem c1_counterexample :
    offlineRecommendation
      ⟨"Bullish", .str "N/A", .str "N/A", .num 0, .num 0, .num 0⟩ = "HOLD" ∧
    specRecommendation
      ⟨"Bullish", .str "N/A", .str "N/A", .num 0, .num 0, .num 0⟩ = "BUY" := by
  constructor <;> decide

/-- C1 (amended): the deterministic decision framework returns BUY exactly
when the trend is bullish and `rsi_ok` holds and (`pe_reasonable` or
`sharpe_positive`); SELL exactly when the trend is not bullish and (not
`pe_reasonable` or `drawdown_severe`); and HOLD otherwise — where `rsi_ok`
requires the RSI to be numeric and < 70 (a missing RSI defaults to 50 and is
ok; a non-numeric RSI is NOT ok, unlike the claim's reading). -/
theorem c1_decision_framework (i : OfflineInputs) :
    (offlineRecommendation i = "BUY" ↔
      (is_bullish i.trend && rsi_ok i.rsi &&
        (pe_reasonable i.pe || sharpe_positive i.sharpe)) = true) ∧
    (offlineRecommendation i = "SELL" ↔
      (!is_bullish i.trend &&
        (!pe_reasonable i.pe || drawdown_severe i.current_drawdown)) = true) ∧
    (offlineRecommendation i = "HOLD" ↔
      ¬((is_bullish i.trend && rsi_ok i.rsi &&
          (pe_reasonable i.pe || sharpe_positive i.sharpe)) = true) ∧
      ¬((!is_bullish i.trend &&
          (!pe_reasonable i.pe || drawdown_severe i.current_drawdown)) = true)) := by
  unfold offlineRecommendation
  cases hb : is_bullish i.trend <;>
  cases hr : rsi_ok i.rsi <;>
  cases hp : pe_reasonable i.pe <;>
  cases hs : sharpe_positive i.sharpe <;>
  cases hd : drawdown_severe i.current_drawdown <;>
  simp

/-- C3: the risk-level classification applies the ordered rules with first
match winning: volatility ≥ 0.35 gives High; otherwise drawdown < −0.30
gives Extreme; otherwise volatility < 0.20 with Sharpe ≥ 0.7 gives Low;
otherwise volatility < 0.25 gives Medium; otherwise Medium.  In particular
volatility exactly 0.35 yields High, and volatility 0.1999999 with
Sharpe ≥ 0.7 and drawdown ≥ −0.30 yields Low. -/
theorem c3_risk_classification (v cd sh : ℚ) :
    (7/20 ≤ v → riskLevel (.num v) (.num cd) (.num sh) = "High") ∧
    (v < 7/20 → cd < -(3/10) →
      riskLevel (.num v) (.num cd) (.num sh) = "Extreme") ∧
    (v < 7/20 → -(3/10) ≤ cd → v < 1/5 → 7/10 ≤ sh →
      riskLevel (.num v) (.num cd) (.num sh) = "Low") ∧
    (v < 7/20 → -(3/10) ≤ cd → ¬(v < 1/5 ∧ 7/10 ≤ sh) →
      riskLevel (.num v) (.num cd) (.num sh) = "Medium") ∧
    riskLevel (.num (35/100)) (.num 0) (.num 0) = "High" ∧
    riskLevel (.num (1999999/10000000)) (.num 0) (.num (7/10)) = "Low" := by
  rw [riskLevel_num, riskLevel_num, riskLevel_num]
  refine ⟨?_, ?_, ?_, ?_, by norm_num, by norm_num⟩
  · intro h1
    rw [if_pos h1]
  · intro h1 h2
    rw [if_neg (by linarith), if_pos h2]
  · intro h1 h2 h3 h4
    rw [if_neg (by linarith), if_neg (by linarith), if_pos ⟨h3, h4⟩]
  · intro h1 h2 h3
    rw [if_neg (by linarith), if_neg (by linarith), if_neg h3]
    split <;> rfl

/-- C3 witness: the theorem applied at volatility 0.4 (rule 1). -/
theorem c3_witness :
    riskLevel (.num (2/5)) (.num 0) (.num 0) = "High" :=
  (c3_risk_classification (2/5) 0 0).1 (by norm_num)

/-- C4 counterexample: the Extreme branch IS reachable — volatility 0.10 with
current drawdown −0.50 classifies as Extreme (rule 1 keys on volatility but
rule 2 keys on drawdown, so rule 1 does not shadow it). -/
theorem c4_counterexample :
    riskLevel (.num (1/10)) (.num (-(1/2))) (.num 0) = "Extreme" := by
  rw [riskLevel_num]
  norm_num

/-- C4 (amended): the Extreme branch is reachable; on numeric inputs the
classifier returns Extreme exactly when volatility < 0.35 and current
drawdown < −0.30. -/
theorem c4_extreme_reachable (v cd sh : ℚ) :
    riskLevel (.num v) (.num cd) (.num sh) = "Extreme" ↔
      v < 7/20 ∧ cd < -(3/10) := by
  rw [riskLevel_num]
  constructor
  · intro h
    by_cases h1 : 7/20 ≤ v
    · rw [if_pos h1] at h
      exact absurd h (by decide)
    · rw [if_neg h1] at h
      by_cases h2 : cd < -(3/10)
      · exact ⟨lt_of_not_le h1, h2⟩
      · rw [if_neg h2] at h
        exfalso
        split at h <;> first | exact absurd h (by decide) | skip
        split at h <;> exact absurd h (by decide)
  · rintro ⟨h1, h2⟩
    rw [if_neg (by linarith), if_pos h2]

/-! ### Indicator engine (analysis_node, src/nodes.py lines 97-127)

The close-price series is a `List ℚ` in chronological order.  Pandas
`diff` / `where` / `ewm(adjust=False)` are modelled exactly; the division
`gain / loss` follows IEEE semantics (`0/0 = nan`, `x/0 = ±inf`), which is
where the RSI saturation behaviour lives. -/

/-- `Close.diff()` without its leading NaN: consecutive differences. -/
def diffsQ (closes : List ℚ) : List ℚ :=
  List.zipWith (fun a b => b - a) closes closes.tail

/-- `delta.where(delta > 0, 0)`: the leading NaN of `diff` becomes 0
(`nan > 0` is false), each later entry keeps a positive delta, else 0. -/
def gains : List ℚ → List ℚ
  | [] => []
  | closes => 0 :: (diffsQ closes).map (fun d => if 0 < d then d else 0)

/-- `(-delta).where(delta < 0, 0)`: negated negative deltas, 0 elsewhere. -/
def losses : List ℚ → List ℚ
  | [] => []
  | closes => 0 :: (diffsQ closes).map (fun d => if d < 0 then -d else 0)

/-- Tail of `ewm(adjust=False).mean()`: `y_i = (1-a)·y_{i-1} + a·x_i`. -/
def ewmGo (a : ℚ) (y : ℚ) : List ℚ → List ℚ
  | [] => []
  | x :: xs =>
    let y2 := (1 - a) * y + a * x
    y2 :: ewmGo a y2 xs

/-- `ewm(alpha/span, adjust=False).mean()`: the first output equals the first
input, later outputs are the recursive exponential average. -/
def ewm (a : ℚ) : List ℚ → List ℚ
  | [] => []
  | x :: xs => x :: ewmGo a x xs

/-- IEEE division of two (finite) floats, as produced by `gain / loss`:
division by zero saturates to ±inf, `0/0` is nan. -/
def pdiv (g l : ℚ) : PyV :=
  if l = 0 then (if 0 < g then .inf else if g < 0 then .ninf else .nan)
  else .num (g / l)

/-- `RSI = 100 - (100 / (1 + rs))` under IEEE arithmetic: an infinite `rs`
saturates the RSI to 100, a nan `rs` propagates. -/
def rsiOfRS : PyV → PyV
  | .nan => .nan
  | .inf => .num 100
  | .ninf => .num 100
  | .num q => if 1 + q = 0 then .ninf else .num (100 - 100 / (1 + q))
  | .str s => .str s

/-- The last row's RSI(14) (`latest["RSI"]`): Wilder smoothing α = 1/14 on
gains and losses, then the RSI formula; `none` only for an empty series. -/
def rsiLast (closes : List ℚ) : Option PyV :=
  match (ewm (1/14) (gains closes)).getLast?,
        (ewm (1/14) (losses closes)).getLast? with
  | some g, some l => some (rsiOfRS (pdiv g l))
  | _, _ => none

/-- MACD line series: `EMA(span=12) − EMA(span=26)`, α = 2/(span+1). -/
def macdSeries (closes : List ℚ) : List ℚ :=
  List.zipWith (fun a b => a - b) (ewm (2/13) closes) (ewm (2/27) closes)

/-- Signal line series: `EMA(MACD, span=9)`. -/
def signalSeries (closes : List ℚ) : List ℚ := ewm (1/5) (macdSeries closes)

/-! ### Python rounding (`round(x, n)`) -/

/-- Round to the nearest integer, ties to even (Python / IEEE default). -/
def roundHalfEven (q : ℚ) : ℤ :=
  if q - ⌊q⌋ < 1/2 then ⌊q⌋
  else if 1/2 < q - ⌊q⌋ then ⌊q⌋ + 1
  else if ⌊q⌋ % 2 = 0 then ⌊q⌋ else ⌊q⌋ + 1

/-- Python `round(q, n)` on an exact rational. -/
def pyRoundN (n : ℕ) (q : ℚ) : ℚ := (roundHalfEven (q * 10 ^ n) : ℚ) / 10 ^ n

/-- `round` lifted to Python values: nan / ±inf round to themselves. -/
def pyRoundPy (n : ℕ) : PyV → PyV
  | .num q => .num (pyRoundN n q)
  | v => v

/-- The `technical_indicators` map stored by `analysis_node`
(src/nodes.py lines 121-127). -/
structure TechMap where
  current_price : ℚ
  rsi_14 : PyV
  macd_line : ℚ
  signal_line : ℚ
  trend : String
  deriving DecidableEq, Repr

/-- `analysis_node`'s technical map (src/nodes.py lines 121-127): the stored
`rsi_14`, `macd_line` and `signal_line` are the last-row values ROUNDED to 2
decimal places; the trend compares the unrounded last-row MACD and signal. -/
def computeTechnicals (closes : List ℚ) : Option TechMap :=
  match closes.getLast?, rsiLast closes,
        (macdSeries closes).getLast?, (signalSeries closes).getLast? with
  | some p, some r, some m, some sg =>
      some { current_price := p
             rsi_14 := pyRoundPy 2 r
             macd_line := pyRoundN 2 m
             signal_line := pyRoundN 2 sg
             trend := if sg < m then "Bullish" else "Bearish" }
  | _, _, _, _ => none

/-- Modelled from the spec (section 4.2, "unrounded values must be used
internally by downstream stages"): the same technical map with the
unrounded last-row values. -/
def specTechnicalsUnrounded (closes : List ℚ) : Option TechMap :=
  match closes.getLast?, rsiLast closes,
        (macdSeries closes).getLast?, (signalSeries closes).getLast? with
  | some p, some r, some m, some sg =>
      some { current_price := p
             rsi_14 := r
             macd_line := m
             signal_line := sg
             trend := if sg < m then "Bullish" else "Bearish" }
  | _, _, _, _ => none

/-- Assemble the offline-summary inputs from a technical map plus the P/E
and risk-metric values. -/
def mkInputs (t : TechMap) (pe cd vol sh : PyV) : OfflineInputs :=
  { trend := t.trend, rsi := t.rsi_14, pe := pe,
    current_drawdown := cd, volatility := vol, sharpe := sh }

/-- The recommendation the pipeline actually produces: the decision framework
applied to the STORED (rounded) technicals. -/
def decisionFromStored (closes : List ℚ) (pe cd vol sh : PyV) : Option String :=
  (computeTechnicals closes).map
    (fun t => offlineRecommendation (mkInputs t pe cd vol sh))

/-- Modelled from the spec: the recommendation on the unrounded technicals
(what "rounding only for display" would give). -/
def specDecisionUnrounded (closes : List ℚ) (pe cd vol sh : PyV) :
    Option String :=
  (specTechnicalsUnrounded closes).map
    (fun t => offlineRecommendation (mkInputs t pe cd vol sh))

/-- C6 counterexample: for the single-row price series [100] the smoothed
gain and loss are both 0, so `rs = 0/0 = nan` and the RSI is nan — not 100
and not a fixed sentinel, contrary to the claim. -/
theorem c6_counterexample : rsiLast [100] = some PyV.nan := by
  norm_num [rsiLast, ewm, ewmGo, gains, losses, diffsQ, pdiv, rsiOfRS]

/-- C6 (amended): the RSI(14) computation never raises a division-by-zero
error; when the Wilder-smoothed loss is 0 and the smoothed gain is positive
the RSI saturates to 100 (via `rs = +inf`), but when the smoothed gain is
also 0 (e.g. a single-row series) the RSI is nan, propagated from `0/0`. -/
theorem c6_rsi_loss_zero (closes : List ℚ) (g : ℚ)
    (hg : (ewm (1/14) (gains closes)).getLast? = some g)
    (hl : (ewm (1/14) (losses closes)).getLast? = some 0) :
    (0 < g → rsiLast closes = some (PyV.num 100)) ∧
    (g = 0 → rsiLast closes = some PyV.nan) := by
  unfold rsiLast
  rw [hg, hl]
  constructor
  · intro h
    simp [pdiv, rsiOfRS, h]
  · intro h
    subst h
    simp [pdiv, rsiOfRS]

/-- C6 witness: on the rising series [1, 2] the smoothed loss is 0 and the
smoothed gain is 1/14 > 0, so the theorem yields RSI = 100. -/
theorem c6_witness : rsiLast [1, 2] = some (PyV.num 100) :=
  (c6_rsi_loss_zero [1, 2] (1/14)
    (by norm_num [ewm, ewmGo, gains, diffsQ])
    (by norm_num [ewm, ewmGo, losses, diffsQ])).1 (by norm_num)

/-- Helper: the decision framework on a Bullish trend whose stored RSI is
exactly 70 is HOLD (`rsi_ok` fails), whatever the other metrics are. -/
lemma offlineRec_bullish_rsi70 (pe cd vol sh : PyV) :
    offlineRecommendation ⟨"Bullish", .num 70, pe, cd, vol, sh⟩ = "HOLD" := by
  have hb : is_bullish "Bullish" = true := by decide
  have hr : rsi_ok (PyV.num 70) = false := by decide
  unfold offlineRecommendation
  simp [hb, hr]

/-- Helper: the decision framework on a Bullish trend, RSI 69.997 and an
unavailable P/E is BUY, whatever the risk metrics are. -/
lemma offlineRec_bullish_rsi69997 (cd vol sh : PyV) :
    offlineRecommendation ⟨"Bullish", .num (69997/1000), .str "N/A", cd, vol, sh⟩
      = "BUY" := by
  have hb : is_bullish "Bullish" = true := by decide
  have hr : rsi_ok (PyV.num (69997/1000)) = true := by norm_num [rsi_ok, numLT]
  have hp : pe_reasonable (PyV.str "N/A") = true := by decide
  unfold offlineRecommendation
  simp [hb, hr, hp]

/-- Concrete evaluation: the raw last-row RSI of [1, 979959, 589920]. -/
lemma rsiLast_evalCase :
    rsiLast [1, 979959, 589920] = some (PyV.num (69997/1000)) := by
  norm_num [rsiLast, ewm, ewmGo, gains, losses, diffsQ, pdiv, rsiOfRS]

/-- Concrete evaluation: the stored (rounded) technicals of
[1, 979959, 589920]; the raw RSI 69.997 is stored as 70. -/
lemma techStored_evalCase :
    computeTechnicals [1, 979959, 589920] =
      some ⟨589920, .num 70, 2685377/25, 1699537/50, "Bullish"⟩ := by
  norm_num [computeTechnicals, rsiLast, ewm, ewmGo, gains, losses, diffsQ,
    pdiv, rsiOfRS, macdSeries, signalSeries, pyRoundPy, pyRoundN, roundHalfEven]

/-- Concrete evaluation: the unrounded technicals of [1, 979959, 589920]. -/
lemma techUnrounded_evalCase :
    specTechnicalsUnrounded [1, 979959, 589920] =
      some ⟨589920, .num (69997/1000), 13233645236/123201,
            104692335076/3080025, "Bullish"⟩ := by
  norm_num [specTechnicalsUnrounded, rsiLast, ewm, ewmGo, gains, losses,
    diffsQ, pdiv, rsiOfRS, macdSeries, signalSeries]

/-- C8 counterexample: on the series [1, 979959, 589920] the raw RSI is
69.997 but `analysis_node` stores `round(69.997, 2) = 70.0` in the state, and
the decision framework compares the STORED value: the pipeline recommends
HOLD where the unrounded comparison would give BUY — so rounding is not
display-only. -/
theorem c8_counterexample :
    rsiLast [1, 979959, 589920] = some (PyV.num (69997/1000)) ∧
    (computeTechnicals [1, 979959, 589920]).map (fun t => t.rsi_14)
      = some (PyV.num 70) ∧
    decisionFromStored [1, 979959, 589920] (.str "N/A") (.num 0) (.num 0)
      (.num 0) = some "HOLD" ∧
    specDecisionUnrounded [1, 979959, 589920] (.str "N/A") (.num 0) (.num 0)
      (.num 0) = some "BUY" := by
  refine ⟨rsiLast_evalCase, ?_, ?_, ?_⟩
  · rw [techStored_evalCase]
    rfl
  · rw [decisionFromStored, techStored_evalCase, Option.map_some']
    exact congrArg some (offlineRec_bullish_rsi70 _ _ _ _)
  · rw [specDecisionUnrounded, techUnrounded_evalCase, Option.map_some']
    exact congrArg some (offlineRec_bullish_rsi69997 _ _ _)

/-- C8 (amended): the analysis stage stores the 2-decimal-rounded RSI in the
pipeline state and the synthesis decision framework compares that rounded
value; on the series [1, 979959, 589920] (raw RSI 69.997, stored RSI 70.00)
the stored-value decision is HOLD while the unrounded-value decision is BUY,
for every choice of the remaining risk metrics. -/
theorem c8_rounded_values_used (cd vol sh : PyV) :
    decisionFromStored [1, 979959, 589920] (.str "N/A") cd vol sh
      = some "HOLD" ∧
    specDecisionUnrounded [1, 979959, 589920] (.str "N/A") cd vol sh
      = some "BUY" := by
  constructor
  · rw [decisionFromStored, techStored_evalCase, Option.map_some']
    exact congrArg some (offlineRec_bullish_rsi70 _ _ _ _)
  · rw [specDecisionUnrounded, techUnrounded_evalCase, Option.map_some']
    exact congrArg some (offlineRec_bullish_rsi69997 _ _ _)

/-! ### Offline summary and synthesis strategies
(`generate_offline_summary` lines 258-303, `synthesis_node` lines 396-472)

Python fixed-point number formatting (`:.2f`, `:.2%`) is abstracted by a
canonical rendering; formatting a non-numeric value with `:.2f` raises a
`ValueError` in Python, which is modelled by `Except`. -/

/-- Stand-in for `f"{v:.2f}"` on a float value (nan and inf format fine). -/
def fmtPyF : PyV → String
  | .num q => toString q
  | .nan => "nan"
  | .inf => "inf"
  | .ninf => "-inf"
  | .str s => s

/-- Stand-in for `f"{v:.2%}"` on a float value. -/
def fmtPyPct : PyV → String
  | .num q => toString (q * 100) ++ "%"
  | .nan => "nan%"
  | .inf => "inf%"
  | .ninf => "-inf%"
  | .str s => s

/-- `f"Trend signal: {trend}"` (src/nodes.py line 277). -/
def trendDriver (t : String) : String := "Trend signal: " ++ t

/-- `f"RSI (14): {rsi:.2f}"` (line 278). -/
def rsiDriver (v : PyV) : String := "RSI (14): " ++ fmtPyF v

/-- `f"P/E ratio: {pe_numeric:.2f}"` (line 280). -/
def peDriver (v : PyV) : String := "P/E ratio: " ++ fmtPyF v

/-- `f"Sharpe ratio: {sharpe_ratio:.2f}"` (line 282). -/
def sharpeDriver (v : PyV) : String := "Sharpe ratio: " ++ fmtPyF v

/-- `f"Volatility: {volatility:.2%}"` (line 284). -/
def volDriver (v : PyV) : String := "Volatility: " ++ fmtPyPct v

/-- `f"Current drawdown: {current_drawdown:.2%}"` (line 286). -/
def ddDriver (v : PyV) : String := "Current drawdown: " ++ fmtPyPct v

/-- The `key_drivers` list of `generate_offline_summary`
(src/nodes.py lines 276-286): trend and RSI unconditionally, then P/E (when
`pe_numeric is not None`), Sharpe, volatility and current drawdown (each
when numeric).  There is no truncation. -/
def keyDrivers (i : OfflineInputs) : List String :=
  [trendDriver i.trend, rsiDriver i.rsi]
    ++ (if peAvailable i.pe then [peDriver i.pe] else [])
    ++ (if i.sharpe.isNum then [sharpeDriver i.sharpe] else [])
    ++ (if i.volatility.isNum then [volDriver i.volatility] else [])
    ++ (if i.current_drawdown.isNum then [ddDriver i.current_drawdown] else [])

/-- The `reasoning` text (src/nodes.py lines 259-273). -/
def mkReasoning (i : OfflineInputs) : String :=
  String.intercalate " " (
    ["Technical analysis shows a " ++ lowerStr i.trend ++ " trend with RSI at "
        ++ fmtPyF i.rsi ++ "."]
    ++ (if peAvailable i.pe then
          ["P/E ratio of " ++ fmtPyF i.pe ++ " indicates "
            ++ (if pe_reasonable i.pe then "reasonable" else "elevated")
            ++ " valuation."]
        else ["Valuation metrics are not available."])
    ++ (if i.volatility.isNum then
          ["Volatility is " ++ fmtPyPct i.volatility ++ " with a Sharpe ratio of "
            ++ fmtPyF i.sharpe ++ "."]
        else [])
    ++ (if i.current_drawdown.isNum then
          ["Current drawdown is " ++ fmtPyPct i.current_drawdown ++ "."]
        else []))

/-- The `final_report` assembly shared by both synthesis paths
(src/nodes.py lines 289-294 and 449-454). -/
def mkFinalReport (rec rl reas : String) (drivers : List String) : String :=
  "**Recommendation:** " ++ rec ++ "\n**Risk Level:** " ++ rl
    ++ "\n\n**Reasoning:**\n" ++ reas ++ "\n\n**Key Drivers:**\n- "
    ++ String.intercalate "\n- " drivers

/-- The result record of a (non-error) synthesis run: the common field set
{recommendation, risk_level, reasoning, key_drivers, final_report, llm_used}
(`llm_used` is the spec's `used_model_path`). -/
structure SynthResult where
  recommendation : String
  risk_level : String
  reasoning : String
  key_drivers : List String
  final_report : String
  llm_used : Bool
  deriving DecidableEq, Repr

/-- `generate_offline_summary` (src/nodes.py lines 196-303).  The Python
function raises a `ValueError` while building `reasoning` when `rsi` is
non-numeric (line 260 formats it with `:.2f`), or when `volatility` is
numeric but `sharpe_ratio` is not (line 268); otherwise it returns the
six-field record with `llm_used = False`. -/
def offlineSummary (i : OfflineInputs) : Except String SynthResult :=
  if !i.rsi.isNum then
    .error "ValueError: unsupported format string passed to str.format"
  else if i.volatility.isNum && !i.sharpe.isNum then
    .error "ValueError: unsupported format string passed to str.format"
  else
    .ok { recommendation := offlineRecommendation i
          risk_level := riskLevel i.volatility i.current_drawdown i.sharpe
          reasoning := mkReasoning i
          key_drivers := keyDrivers i
          final_report := mkFinalReport (offlineRecommendation i)
            (riskLevel i.volatility i.current_drawdown i.sharpe)
            (mkReasoning i) (keyDrivers i)
          llm_used := false }

/-- Outcome of the language-model strategy in `synthesis_node`: no API key
in the environment, both the primary and fallback model raised, the response
failed strict JSON parsing, or a successfully parsed report. -/
inductive LLMOutcome where
  | noApiKey
  | bothModelsFail
  | parseFailure
  | parsed (rec reas : String) (drivers : List String) (rl : String)
  deriving DecidableEq, Repr

/-- The outcomes on which control transfers to the deterministic path. -/
def LLMOutcome.isFailure : LLMOutcome → Bool
  | .parsed _ _ _ _ => false
  | _ => true

/-- The model-path result record (src/nodes.py lines 444-461). -/
def mkLlmResult (rec reas : String) (drivers : List String) (rl : String) :
    SynthResult :=
  { recommendation := rec, risk_level := rl, reasoning := reas,
    key_drivers := drivers,
    final_report := mkFinalReport rec rl reas drivers, llm_used := true }

/-- `synthesis_node` after its error-precondition check (src/nodes.py lines
331-472): a parsed model response yields the model-path record with
`llm_used = True`; every failure outcome returns the offline summary with
`llm_used` forced to `False` (lines 398-402, 421-427, 436-441, 463-472). -/
def synthesisAfterCheck (o : LLMOutcome) (i : OfflineInputs) :
    Except String SynthResult :=
  match o with
  | .parsed rec reas drivers rl => .ok (mkLlmResult rec reas drivers rl)
  | _ => (offlineSummary i).map (fun r => { r with llm_used := false })

/-- The keys of the offline-path result dictionary, in literal order
(src/nodes.py lines 296-303). -/
def offlineResultKeys : List String :=
  ["recommendation", "risk_level", "reasoning", "key_drivers",
   "final_report", "llm_used"]

/-- The keys of the model-path result dictionary: the four parsed report
fields in schema order, then `final_report` and `llm_used`
(src/nodes.py lines 189-193 and 447-459). -/
def llmResultKeys : List String :=
  ["recommendation", "reasoning", "key_drivers", "risk_level",
   "final_report", "llm_used"]

/-- C5: on a successfully analyzed state (numeric RSI and risk metrics), if
the language-model path fails totally (no API key, both models raise, or the
response fails strict JSON parsing), the synthesis stage returns the
deterministic fallback's result with `llm_used = False`; the deterministic
path returns normally (never raises), and its field set is the same as a
successful model-path result's (the two key lists are a permutation of each
other). -/
theorem c5_deterministic_fallback (i : OfflineInputs) (o : LLMOutcome)
    (hrsi : i.rsi.isNum = true) (hsh : i.sharpe.isNum = true)
    (hvol : i.volatility.isNum = true) (hcd : i.current_drawdown.isNum = true)
    (ho : o.isFailure = true) :
    ∃ r, offlineSummary i = .ok r ∧ synthesisAfterCheck o i = .ok r ∧
      r.llm_used = false ∧ offlineResultKeys.Perm llmResultKeys := by
  have hok : offlineSummary i =
      .ok { recommendation := offlineRecommendation i
            risk_level := riskLevel i.volatility i.current_drawdown i.sharpe
            reasoning := mkReasoning i
            key_drivers := keyDrivers i
            final_report := mkFinalReport (offlineRecommendation i)
              (riskLevel i.volatility i.current_drawdown i.sharpe)
              (mkReasoning i) (keyDrivers i)
            llm_used := false } := by
    unfold offlineSummary
    rw [hrsi, hsh]
    simp
  refine ⟨_, hok, ?_, rfl, by decide⟩
  cases o with
  | parsed rec reas drivers rl => simp [LLMOutcome.isFailure] at ho
  | noApiKey =>
      have h : synthesisAfterCheck LLMOutcome.noApiKey i
          = (offlineSummary i).map (fun r => { r with llm_used := false }) := rfl
      rw [h, hok]
      rfl
  | bothModelsFail =>
      have h : synthesisAfterCheck LLMOutcome.bothModelsFail i
          = (offlineSummary i).map (fun r => { r with llm_used := false }) := rfl
      rw [h, hok]
      rfl
  | parseFailure =>
      have h : synthesisAfterCheck LLMOutcome.parseFailure i
          = (offlineSummary i).map (fun r => { r with llm_used := false }) := rfl
      rw [h, hok]
      rfl

/-- C5 witness: the theorem applied to a concrete analyzed state with the
no-API-key outcome. -/
theorem c5_witness :
    ∃ r, offlineSummary ⟨"Bullish", .num 50, .str "N/A", .num 0, .num 0, .num 0⟩
        = .ok r ∧
      synthesisAfterCheck .noApiKey
        ⟨"Bullish", .num 50, .str "N/A", .num 0, .num 0, .num 0⟩ = .ok r ∧
      r.llm_used = false ∧ offlineResultKeys.Perm llmResultKeys :=
  c5_deterministic_fallback _ .noApiKey rfl rfl rfl rfl rfl

/-- C7 counterexample: with an available P/E and numeric risk metrics the
offline `key_drivers` list has 6 entries — the claimed cap of 5 entries does
not exist in the code. -/
theorem c7_counterexample :
    (keyDrivers ⟨"Bullish", .num 50, .num 25, .num 0, .num 0, .num 0⟩).length
      = 6 := by
  norm_num [keyDrivers, peAvailable, PyV.isNum]

/-- C7 (amended): on the success path (numeric Sharpe, volatility and
drawdown) the offline `key_drivers` list has trend and RSI first and then, in
fixed order, P/E (only when available), Sharpe ratio, volatility and current
drawdown — 5 entries without P/E and 6 with it; no truncation occurs. -/
theorem c7_key_drivers_order (i : OfflineInputs)
    (hsh : i.sharpe.isNum = true) (hvol : i.volatility.isNum = true)
    (hcd : i.current_drawdown.isNum = true) :
    (peAvailable i.pe = false →
      keyDrivers i = [trendDriver i.trend, rsiDriver i.rsi,
        sharpeDriver i.sharpe, volDriver i.volatility,
        ddDriver i.current_drawdown]) ∧
    (peAvailable i.pe = true →
      keyDrivers i = [trendDriver i.trend, rsiDriver i.rsi, peDriver i.pe,
        sharpeDriver i.sharpe, volDriver i.volatility,
        ddDriver i.current_drawdown]) := by
  unfold keyDrivers
  rw [hsh, hvol, hcd]
  constructor <;> intro h <;> rw [h] <;> simp

/-- C7 witness: the theorem applied at a state with P/E 25 available. -/
theorem c7_witness :
    keyDrivers ⟨"Bearish", .num 40, .num 25, .num 0, .num 0, .num 0⟩ =
      [trendDriver "Bearish", rsiDriver (.num 40), peDriver (.num 25),
       sharpeDriver (.num 0), volDriver (.num 0), ddDriver (.num 0)] :=
  (c7_key_drivers_order ⟨"Bearish", .num 40, .num 25, .num 0, .num 0, .num 0⟩
    rfl rfl rfl).2 rfl

/-! ### Pipeline state machine (src/nodes.py, the four node functions)

The LangGraph state is a dictionary; each node returns a partial update that
is merged over the previous state.  Here the state is a record whose fields
are `Option`s (`none` = key absent) and each node is a state-to-state
function performing its merged update.  External collaborators appear as
parameters: `fetch` is the yfinance history call (`Except` models a raise),
`info` the yfinance fundamentals lookup, `stdFn` the annualized standard
deviation of the daily returns (its value involves a floating-point square
root, which has no exact rational embedding; no claim depends on it), and
`o` the language-model outcome.  Date bookkeeping (`start_date`/`end_date`)
is not modelled; no claim mentions it. -/

/-- The `fundamental_metrics` map (src/nodes.py lines 90-95), after the
`.get(..., "N/A")` defaults (`pe` abbreviates `pe_ratio`). -/
structure FundMap where
  market_cap : PyV
  pe : PyV
  forward_pe : PyV
  sector : String
  deriving DecidableEq, Repr

/-- `Close.pct_change()` without its leading NaN. -/
def returnsQ (closes : List ℚ) : List ℚ :=
  List.zipWith (fun prev cur => (cur - prev) / prev) closes closes.tail

/-- `cumprod` of a series. -/
def cumprodQ (l : List ℚ) : List ℚ := (l.scanl (· * ·) 1).tail

/-- `cummax` of a series. -/
def cummax : List ℚ → List ℚ
  | [] => []
  | x :: xs => xs.scanl max x

/-- The drawdown series `(cumulative - running_max) / running_max`
(src/nodes.py lines 161-163). -/
def drawdownSeries (closes : List ℚ) : List ℚ :=
  let c := cumprodQ ((returnsQ closes).map (fun r => 1 + r))
  List.zipWith (fun cv mv => (cv - mv) / mv) c (cummax c)

/-- Minimum of a rational list, `none` when empty. -/
def listMin : List ℚ → Option ℚ
  | [] => none
  | x :: xs => some (xs.foldl min x)

/-- Mean of a rational list (0 on the empty list; unreachable on the
pipeline's non-empty series). -/
def meanQ (l : List ℚ) : ℚ := l.sum / (l.length : ℚ)

/-- The `risk_metrics` map (src/nodes.py lines 177-182); `sharpe`
abbreviates `sharpe_ratio`. -/
structure RiskMap where
  max_drawdown : PyV
  current_drawdown : PyV
  volatility : PyV
  sharpe : PyV
  deriving DecidableEq, Repr

/-- The `risk_metrics` map stored by `risk_node` (src/nodes.py lines
156-182): drawdowns rounded to 4 decimals, volatility to 4, Sharpe to 2;
`stdFn` supplies the annualized standard deviation `std() * 252**0.5`, and
the Sharpe ratio is defined as 0 when it is 0. -/
def computeRiskMetrics (stdFn : List ℚ → ℚ) (closes : List ℚ) : RiskMap :=
  let rets := returnsQ closes
  let dd := drawdownSeries closes
  let sd := stdFn rets
  { max_drawdown := match listMin dd with
      | some m => .num (pyRoundN 4 m)
      | none => .nan
    current_drawdown := match dd.getLast? with
      | some c => .num (pyRoundN 4 c)
      | none => .nan
    volatility := .num (pyRoundN 4 sd)
    sharpe := .num (pyRoundN 2
      (if sd ≠ 0 then (meanQ rets * 252 - 1/25) / sd else 0)) }

/-- A dictionary-valued state entry: the empty dict `{}` or a populated
map. -/
inductive MapVal (α : Type) where
  | emptyMap
  | vals (a : α)
  deriving DecidableEq, Repr

/-- The pipeline state (`FinancialState`): `none` marks an absent key. -/
structure FinState where
  ticker : String
  historical_data : Option (List ℚ)
  error : Option String
  success : Option Bool
  fundamental_metrics : Option (MapVal FundMap)
  technical_indicators : Option (MapVal TechMap)
  risk_metrics : Option (MapVal RiskMap)
  recommendation : Option String
  risk_level : Option String
  reasoning : Option String
  key_drivers : Option (List String)
  final_report : Option String
  llm_used : Option Bool

/-- The fresh per-invocation state: only the ticker is set. -/
def initState (t : String) : FinState :=
  ⟨t, none, none, none, none, none, none, none, none, none, none, none, none⟩

/-- Python truthiness of `state.get("error")`: a present non-empty string. -/
def errTruthy : Option String → Bool
  | none => false
  | some m => m.length != 0

/-- The empty-history error message (src/nodes.py line 33; quote characters
around the ticker elided). -/
def noDataMsg (t : String) : String :=
  "No data found for ticker " ++ t ++ ". Please verify the ticker symbol is correct."

/-- The fetch-exception error message (src/nodes.py line 55). -/
def fetchErrMsg (t e : String) : String :=
  "Error fetching data for ticker " ++ t ++ ": " ++ e

/-- `data_ingestion_node` (src/nodes.py lines 17-61): an empty or raising
fetch stores `error` and `success = False`; otherwise the history and
`success = True`. -/
def data_ingestion_node (fetch : Except String (List ℚ)) (s : FinState) :
    FinState :=
  match fetch with
  | .error e =>
      { s with historical_data := none,
               error := some (fetchErrMsg s.ticker e), success := some false }
  | .ok h =>
      if h.isEmpty then
        { s with historical_data := none,
                 error := some (noDataMsg s.ticker), success := some false }
      else
        { s with historical_data := some h, success := some true }

/-- `analysis_node` (src/nodes.py lines 64-134): on a prior error or missing
history it re-propagates the error and stores empty metric maps; otherwise
it stores the fundamentals and the computed technicals. -/
def analysis_node (info : FundMap) (s : FinState) : FinState :=
  if errTruthy s.error || s.historical_data.isNone then
    { s with fundamental_metrics := some .emptyMap,
             technical_indicators := some .emptyMap,
             error := some (s.error.getD "No historical data available"),
             success := some false }
  else
    match s.historical_data with
    | some closes =>
        match computeTechnicals closes with
        | some tch => { s with fundamental_metrics := some (.vals info),
                               technical_indicators := some (.vals tch) }
        | none => s
    | none => s

/-- `risk_node` (src/nodes.py lines 136-186): same short-circuit check, then
the computed risk metrics. -/
def risk_node (stdFn : List ℚ → ℚ) (s : FinState) : FinState :=
  if errTruthy s.error || s.historical_data.isNone then
    { s with risk_metrics := some .emptyMap,
             error := some (s.error.getD "No historical data available"),
             success := some false }
  else
    match s.historical_data with
    | some closes =>
        { s with risk_metrics := some (.vals (computeRiskMetrics stdFn closes)) }
    | none => s

/-- The offline-summary inputs read from the state with the `.get` defaults
of src/nodes.py lines 203-216. -/
def inputsFromState (s : FinState) : OfflineInputs :=
  { trend := match s.technical_indicators with
      | some (.vals t) => t.trend
      | _ => "Unknown"
    rsi := match s.technical_indicators with
      | some (.vals t) => t.rsi_14
      | _ => .num 50
    pe := match s.fundamental_metrics with
      | some (.vals f) => f.pe
      | _ => .str "N/A"
    current_drawdown := match s.risk_metrics with
      | some (.vals r) => r.current_drawdown
      | _ => .num 0
    volatility := match s.risk_metrics with
      | some (.vals r) => r.volatility
      | _ => .num 0
    sharpe := match s.risk_metrics with
      | some (.vals r) => r.sharpe
      | _ => .num 0 }

/-- `synthesis_node` (src/nodes.py lines 307-472): on a prior error it emits
the ERROR record (lines 315-329); otherwise it runs the two-strategy
synthesis and merges the six result fields into the state. -/
def synthesis_node (o : LLMOutcome) (s : FinState) : Except String FinState :=
  if errTruthy s.error || s.historical_data.isNone then
    let msg := s.error.getD "No historical data available"
    .ok { s with
      recommendation := some "ERROR",
      risk_level := some "Unknown",
      reasoning := some ("Analysis could not be completed: " ++ msg),
      key_drivers := some [msg],
      final_report := some ("**Error:** " ++ msg
        ++ "\n\nAnalysis could not be completed for ticker " ++ s.ticker
        ++ ". Please verify the ticker symbol is correct and try again."),
      error := some msg,
      success := some false }
  else
    (synthesisAfterCheck o (inputsFromState s)).map (fun r =>
      { s with recommendation := some r.recommendation,
               risk_level := some r.risk_level,
               reasoning := some r.reasoning,
               key_drivers := some r.key_drivers,
               final_report := some r.final_report,
               llm_used := some r.llm_used })

/-- The four-stage pipeline over a fresh state. -/
def pipeline (fetch : Except String (List ℚ)) (info : FundMap)
    (stdFn : List ℚ → ℚ) (o : LLMOutcome) (t : String) :
    Except String FinState :=
  synthesis_node o (risk_node stdFn (analysis_node info
    (data_ingestion_node fetch (initState t))))

/-- Helper: the analysis stage on a state with no history takes its error
branch. -/
lemma analysis_node_error (info : FundMap) (s : FinState)
    (h : s.historical_data = none) :
    analysis_node info s =
      { s with fundamental_metrics := some .emptyMap,
               technical_indicators := some .emptyMap,
               error := some (s.error.getD "No historical data available"),
               success := some false } := by
  unfold analysis_node
  rw [h]
  simp

/-- Helper: the risk stage on a state with no history takes its error
branch. -/
lemma risk_node_error (stdFn : List ℚ → ℚ) (s : FinState)
    (h : s.historical_data = none) :
    risk_node stdFn s =
      { s with risk_metrics := some .emptyMap,
               error := some (s.error.getD "No historical data available"),
               success := some false } := by
  unfold risk_node
  rw [h]
  simp

/-- Helper: the synthesis stage on a state with no history takes its error
branch. -/
lemma synthesis_node_error (o : LLMOutcome) (s : FinState)
    (h : s.historical_data = none) :
    synthesis_node o s =
      .ok { s with
        recommendation := some "ERROR",
        risk_level := some "Unknown",
        reasoning := some ("Analysis could not be completed: "
          ++ s.error.getD "No historical data available"),
        key_drivers := some [s.error.getD "No historical data available"],
        final_report := some ("**Error:** "
          ++ s.error.getD "No historical data available"
          ++ "\n\nAnalysis could not be completed for ticker " ++ s.ticker
          ++ ". Please verify the ticker symbol is correct and try again."),
        error := some (s.error.getD "No historical data available"),
        success := some false } := by
  unfold synthesis_node
  rw [h]
  simp

/-- Helper: once the ingested state carries an error and no history, every
later stage re-propagates the error unchanged, empties its own outputs and
keeps `success = False`, and the final record is the ERROR record. -/
lemma stages_propagate_error (info : FundMap) (stdFn : List ℚ → ℚ)
    (o : LLMOutcome) (s1 : FinState) (msg : String)
    (he : s1.error = some msg) (hh : s1.historical_data = none) :
    (analysis_node info s1).error = some msg ∧
    (analysis_node info s1).fundamental_metrics = some .emptyMap ∧
    (analysis_node info s1).technical_indicators = some .emptyMap ∧
    (analysis_node info s1).success = some false ∧
    (risk_node stdFn (analysis_node info s1)).error = some msg ∧
    (risk_node stdFn (analysis_node info s1)).risk_metrics = some .emptyMap ∧
    (risk_node stdFn (analysis_node info s1)).success = some false ∧
    ∃ s4, synthesis_node o (risk_node stdFn (analysis_node info s1)) = .ok s4 ∧
      s4.error = some msg ∧ s4.success = some false ∧
      s4.recommendation = some "ERROR" ∧ s4.risk_level = some "Unknown" := by
  have h2 := analysis_node_error info s1 hh
  have hh2 : (analysis_node info s1).historical_data = none := by
    rw [h2]
    exact hh
  have he2 : (analysis_node info s1).error = some msg := by
    rw [h2]
    simp [he]
  have h3 := risk_node_error stdFn (analysis_node info s1) hh2
  have hh3 : (risk_node stdFn (analysis_node info s1)).historical_data
      = none := by
    rw [h3]
    exact hh2
  have he3 : (risk_node stdFn (analysis_node info s1)).error = some msg := by
    rw [h3]
    simp [he2]
  have h4 := synthesis_node_error o (risk_node stdFn (analysis_node info s1))
    hh3
  refine ⟨he2, by rw [h2], by rw [h2], by rw [h2], he3, by rw [h3],
    by rw [h3], _, h4, ?_, ?_, ?_, ?_⟩ <;> simp [he3]

/-- C2: for every pipeline run in which the ingestion stage sets an error
(`success = False`), each later stage re-propagates the existing error
message unchanged, sets its own output fields to empty/neutral values and
keeps `success = False`, and the final state has `recommendation = ERROR`
together with `success = False`. -/
theorem c2_error_propagation (t : String) (fetch : Except String (List ℚ))
    (info : FundMap) (stdFn : List ℚ → ℚ) (o : LLMOutcome)
    (hfail : (data_ingestion_node fetch (initState t)).success = some false) :
    ∃ msg,
      (data_ingestion_node fetch (initState t)).error = some msg ∧
      ((analysis_node info (data_ingestion_node fetch (initState t))).error
          = some msg ∧
        (analysis_node info (data_ingestion_node fetch
          (initState t))).fundamental_metrics = some .emptyMap ∧
        (analysis_node info (data_ingestion_node fetch
          (initState t))).technical_indicators = some .emptyMap ∧
        (analysis_node info (data_ingestion_node fetch
          (initState t))).success = some false ∧
        (risk_node stdFn (analysis_node info (data_ingestion_node fetch
          (initState t)))).error = some msg ∧
        (risk_node stdFn (analysis_node info (data_ingestion_node fetch
          (initState t)))).risk_metrics = some .emptyMap ∧
        (risk_node stdFn (analysis_node info (data_ingestion_node fetch
          (initState t)))).success = some false ∧
        ∃ s4, synthesis_node o (risk_node stdFn (analysis_node info
            (data_ingestion_node fetch (initState t)))) = .ok s4 ∧
          s4.error = some msg ∧ s4.success = some false ∧
          s4.recommendation = some "ERROR" ∧
          s4.risk_level = some "Unknown") := by
  rcases fetch with e | h
  · exact ⟨fetchErrMsg t e, rfl,
      stages_propagate_error info stdFn o _ _ rfl rfl⟩
  · cases h with
    | nil => exact ⟨noDataMsg t, rfl,
        stages_propagate_error info stdFn o _ _ rfl rfl⟩
    | cons x xs =>
        exfalso
        simp [data_ingestion_node] at hfail

/-- C2 witness: the theorem applied to a run whose fetch returns an empty
series for ticker ZZZZ. -/
theorem c2_witness :
    ∃ msg,
      (data_ingestion_node (.ok []) (initState "ZZZZ")).error = some msg ∧
      ((analysis_node ⟨.str "N/A", .str "N/A", .str "N/A", "Unknown"⟩
          (data_ingestion_node (.ok []) (initState "ZZZZ"))).error
          = some msg ∧
        (analysis_node ⟨.str "N/A", .str "N/A", .str "N/A", "Unknown"⟩
          (data_ingestion_node (.ok []) (initState "ZZZZ"))).fundamental_metrics
          = some .emptyMap ∧
        (analysis_node ⟨.str "N/A", .str "N/A", .str "N/A", "Unknown"⟩
          (data_ingestion_node (.ok []) (initState "ZZZZ"))).technical_indicators
          = some .emptyMap ∧
        (analysis_node ⟨.str "N/A", .str "N/A", .str "N/A", "Unknown"⟩
          (data_ingestion_node (.ok []) (initState "ZZZZ"))).success
          = some false ∧
        (risk_node (fun _ => 0) (analysis_node
          ⟨.str "N/A", .str "N/A", .str "N/A", "Unknown"⟩
          (data_ingestion_node (.ok []) (initState "ZZZZ")))).error
          = some msg ∧
        (risk_node (fun _ => 0) (analysis_node
          ⟨.str "N/A", .str "N/A", .str "N/A", "Unknown"⟩
          (data_ingestion_node (.ok []) (initState "ZZZZ")))).risk_metrics
          = some .emptyMap ∧
        (risk_node (fun _ => 0) (analysis_node
          ⟨.str "N/A", .str "N/A", .str "N/A", "Unknown"⟩
          (data_ingestion_node (.ok []) (initState "ZZZZ")))).success
          = some false ∧
        ∃ s4, synthesis_node .noApiKey (risk_node (fun _ => 0) (analysis_node
            ⟨.str "N/A", .str "N/A", .str "N/A", "Unknown"⟩
            (data_ingestion_node (.ok []) (initState "ZZZZ")))) = .ok s4 ∧
          s4.error = some msg ∧ s4.success = some false ∧
          s4.recommendation = some "ERROR" ∧
          s4.risk_level = some "Unknown") :=
  c2_error_propagation "ZZZZ" (.ok [])
    ⟨.str "N/A", .str "N/A", .str "N/A", "Unknown"⟩ (fun _ => 0) .noApiKey rfl

/-! ### Confidence aggregator
(`AgentOrchestrator._calculate_confidence`, src/agents/orchestrator.py
lines 113-170) -/

/-- The `market_data` agent result as read by the aggregator: its status,
whether `price_data.current_price` is present, the numeric
`price_data.change_percent` (default 0) and whether `company_info.name` is
non-empty. -/
structure MarketData where
  status_success : Bool
  has_current_price : Bool
  change_percent : ℚ
  has_name : Bool
  deriving DecidableEq, Repr

/-- The `sentiment` agent result: status, the positive / negative article
counts from `distribution` (default 0) and `articles_analyzed` (default 1). -/
structure SentimentData where
  status_success : Bool
  positive : ℚ
  negative : ℚ
  articles_analyzed : ℚ
  deriving DecidableEq, Repr

/-- The `risk` agent result: status and the `risk_level` label. -/
structure RiskData where
  status_success : Bool
  risk_level : String
  deriving DecidableEq, Repr

/-- The `agent_results` mapping consumed by `_calculate_confidence`. -/
structure AgentResults where
  market : MarketData
  sentiment : SentimentData
  risk : RiskData
  deriving DecidableEq, Repr

/-- Market component score (orchestrator.py lines 122-137): 0.3 for a
present price, plus `min(|change_percent| / 10, 0.2)`, plus 0.2 for a
company name, capped at 1.0; 0 on failure. -/
def marketScore (m : MarketData) : ℚ :=
  if m.status_success then
    min ((if m.has_current_price then 3/10 else 0)
      + min (|m.change_percent| / 10) (1/5)
      + (if m.has_name then 1/5 else 0)) 1
  else 0

/-- Sentiment component score (lines 139-150): the signed ratio
`(positive − negative) / max(articles_analyzed, 1)` mapped linearly from
[-1, 1] onto [0, 1]; 0 on failure. -/
def sentimentScore (s : SentimentData) : ℚ :=
  if s.status_success then
    ((s.positive - s.negative) / max s.articles_analyzed 1 + 1) / 2
  else 0

/-- Risk component score (lines 152-160): the inverted risk-level lookup
{Low → 1.0, Medium → 0.6, High → 0.3}, default 0.6; 0 on failure. -/
def riskScore (r : RiskData) : ℚ :=
  if r.status_success then
    if r.risk_level = "Low" then 1
    else if r.risk_level = "Medium" then 3/5
    else if r.risk_level = "High" then 3/10
    else 3/5
  else 0

/-- The weighted sum with weights market 0.4, sentiment 0.35, risk 0.25
(line 163). -/
def weightedConf (a : AgentResults) : ℚ :=
  marketScore a.market * (2/5) + sentimentScore a.sentiment * (7/20)
    + riskScore a.risk * (1/4)

/-- `_calculate_confidence` (lines 113-170): baseline 0.4, rescale as
`baseline + weighted · (1 − baseline)`, clamp to [baseline, 1], round to 2
decimals. -/
def calculateConfidence (a : AgentResults) : ℚ :=
  pyRoundN 2 (min (max (2/5 + weightedConf a * (1 - 2/5)) (2/5)) 1)

/-- Round-half-even is at least the floor. -/
lemma roundHalfEven_ge_floor (q : ℚ) : ⌊q⌋ ≤ roundHalfEven q := by
  unfold roundHalfEven
  split_ifs <;> omega

/-- Round-half-even is at most the floor plus one. -/
lemma roundHalfEven_le_floor_add_one (q : ℚ) : roundHalfEven q ≤ ⌊q⌋ + 1 := by
  unfold roundHalfEven
  split_ifs <;> omega

/-- Rounding cannot cross an integer bound from above. -/
lemma roundHalfEven_le_intCast (q : ℚ) (b : ℤ) (h : q ≤ (b : ℚ)) :
    roundHalfEven q ≤ b := by
  rcases eq_or_lt_of_le h with he | hl
  · unfold roundHalfEven
    rw [he]
    simp
  · have hfl : ⌊q⌋ + 1 ≤ b := Int.floor_lt.mpr hl
    exact le_trans (roundHalfEven_le_floor_add_one q) hfl

/-- Rounding cannot cross an integer bound from below. -/
lemma intCast_le_roundHalfEven (q : ℚ) (b : ℤ) (h : (b : ℚ) ≤ q) :
    b ≤ roundHalfEven q :=
  le_trans (Int.le_floor.mpr h) (roundHalfEven_ge_floor q)

/-- Helper: the market component score lies in [0, 0.7] — its three summands
cap at 0.3 + 0.2 + 0.2, so the `min(·, 1.0)` guard never binds. -/
lemma marketScore_mem (m : MarketData) :
    0 ≤ marketScore m ∧ marketScore m ≤ 7/10 := by
  have hmin0 : (0:ℚ) ≤ min (|m.change_percent| / 10) (1/5) :=
    le_min (by positivity) (by norm_num)
  have hmin2 : min (|m.change_percent| / 10) (1/5) ≤ 1/5 := min_le_right _ _
  by_cases hstat : m.status_success = true
  · have hA0 : 0 ≤ (if m.has_current_price then (3:ℚ)/10 else 0)
        + min (|m.change_percent| / 10) (1/5)
        + (if m.has_name then (1:ℚ)/5 else 0) := by
      split_ifs <;> linarith
    have hA7 : (if m.has_current_price then (3:ℚ)/10 else 0)
        + min (|m.change_percent| / 10) (1/5)
        + (if m.has_name then (1:ℚ)/5 else 0) ≤ 7/10 := by
      split_ifs <;> linarith
    unfold marketScore
    rw [if_pos hstat]
    exact ⟨le_min hA0 (by norm_num), le_trans (min_le_left _ _) hA7⟩
  · unfold marketScore
    rw [if_neg hstat]
    norm_num

/-- Helper: the sentiment component score lies in [0, 1] whenever the
article counts are consistent (|positive − negative| bounded by the total). -/
lemma sentimentScore_mem (s : SentimentData)
    (hs : |s.positive - s.negative| ≤ max s.articles_analyzed 1) :
    0 ≤ sentimentScore s ∧ sentimentScore s ≤ 1 := by
  unfold sentimentScore
  split_ifs with h
  · have hM : (0:ℚ) < max s.articles_analyzed 1 :=
      lt_of_lt_of_le one_pos (le_max_right _ _)
    have h1 : s.positive - s.negative ≤ max s.articles_analyzed 1 :=
      le_trans (le_abs_self _) hs
    have h2 : -(max s.articles_analyzed 1) ≤ s.positive - s.negative := by
      have := neg_abs_le (s.positive - s.negative)
      linarith
    have h3 : (s.positive - s.negative) / max s.articles_analyzed 1 ≤ 1 :=
      (div_le_one hM).mpr h1
    have h4 : -1 ≤ (s.positive - s.negative) / max s.articles_analyzed 1 := by
      rw [le_div_iff₀ hM]
      linarith
    constructor <;> linarith
  · norm_num

/-- Helper: the risk component score lies in [0, 1]. -/
lemma riskScore_mem (r : RiskData) : 0 ≤ riskScore r ∧ riskScore r ≤ 1 := by
  unfold riskScore
  split_ifs <;> norm_num

/-- C9 counterexample: the sentiment component score is NOT always in [0, 1]:
with 10 positive articles against `articles_analyzed = 1` the score is 5.5. -/
theorem c9_counterexample :
    ¬ sentimentScore ⟨true, 10, 0, 1⟩ ≤ 1 := by
  norm_num [sentimentScore, max_self]

/-- C9 (amended): with weights 0.4 / 0.35 / 0.25, the market and risk
component scores always lie in [0, 1], the sentiment score lies in [0, 1]
whenever |positive − negative| is bounded by the article total (true of
genuine counts, but not enforced), and the aggregator returns
`round(clamp(0.4 + w·(1 − 0.4), 0.4, 1.0), 2)`, which is never below the 0.4
baseline. -/
theorem c9_confidence_formula (a : AgentResults)
    (hs : |a.sentiment.positive - a.sentiment.negative|
      ≤ max a.sentiment.articles_analyzed 1) :
    (0 ≤ marketScore a.market ∧ marketScore a.market ≤ 1) ∧
    (0 ≤ sentimentScore a.sentiment ∧ sentimentScore a.sentiment ≤ 1) ∧
    (0 ≤ riskScore a.risk ∧ riskScore a.risk ≤ 1) ∧
    calculateConfidence a
      = pyRoundN 2 (min (max (2/5 + weightedConf a * (1 - 2/5)) (2/5)) 1) ∧
    2/5 ≤ calculateConfidence a := by
  obtain ⟨hm0, hm7⟩ := marketScore_mem a.market
  obtain ⟨hs0, hs1⟩ := sentimentScore_mem a.sentiment hs
  obtain ⟨hr0, hr1⟩ := riskScore_mem a.risk
  refine ⟨⟨hm0, by linarith⟩, ⟨hs0, hs1⟩, ⟨hr0, hr1⟩, rfl, ?_⟩
  unfold calculateConfidence pyRoundN
  set y := min (max (2/5 + weightedConf a * (1 - 2/5)) (2/5)) 1 with hydef
  have hy : (2/5 : ℚ) ≤ y := le_min (le_max_right _ _) (by norm_num)
  have h40 : ((40:ℤ) : ℚ) ≤ y * 10 ^ 2 := by
    push_cast
    linarith
  have hr := intCast_le_roundHalfEven _ 40 h40
  have h2 : ((40:ℤ) : ℚ) ≤ (roundHalfEven (y * 10 ^ 2) : ℚ) :=
    Int.cast_le.mpr hr
  rw [le_div_iff₀ (by norm_num : (0:ℚ) < 10 ^ 2)]
  push_cast at h2
  exact le_trans (by norm_num) h2

/-- C9 witness: the theorem applied at a concrete consistent input. -/
theorem c9_witness :
    2/5 ≤ calculateConfidence ⟨⟨true, true, 5, true⟩, ⟨true, 1, 1, 2⟩,
      ⟨true, "Medium"⟩⟩ :=
  (c9_confidence_formula ⟨⟨true, true, 5, true⟩, ⟨true, 1, 1, 2⟩,
    ⟨true, "Medium"⟩⟩ (by norm_num [max_def])).2.2.2.2

/-- C10 counterexample: the aggregated confidence CAN reach 1.0 — with an
inflated sentiment distribution (100 positive articles, `articles_analyzed
= 1`) the weighted sum exceeds 1, the clamp hits its upper bound and the
result is 1.0 > 0.93. -/
theorem c10_counterexample :
    calculateConfidence ⟨⟨true, true, 100, true⟩, ⟨true, 100, 0, 1⟩,
      ⟨true, "Low"⟩⟩ = 1 := by
  norm_num [calculateConfidence, weightedConf, marketScore, sentimentScore,
    riskScore, pyRoundN, roundHalfEven, max_def, min_def]

/-- C10 (amended): whenever the sentiment counts are consistent
(|positive − negative| ≤ max(articles_analyzed, 1)), the market raw score is
bounded by 0.3 + 0.2 + 0.2 = 0.7 (its nominal cap of 1.0 never binds), the
weighted sum is at most 0.7·0.4 + 1·0.35 + 1·0.25 = 0.88, and the final
confidence is at most round(0.4 + 0.88·0.6, 2) = 0.93 — so it cannot reach
1.0 on consistent inputs. -/
theorem c10_confidence_cap (a : AgentResults)
    (hs : |a.sentiment.positive - a.sentiment.negative|
      ≤ max a.sentiment.articles_analyzed 1) :
    marketScore a.market ≤ 7/10 ∧ weightedConf a ≤ 22/25 ∧
    calculateConfidence a ≤ 93/100 := by
  obtain ⟨hm0, hm7⟩ := marketScore_mem a.market
  obtain ⟨hs0, hs1⟩ := sentimentScore_mem a.sentiment hs
  obtain ⟨hr0, hr1⟩ := riskScore_mem a.risk
  have hw : weightedConf a ≤ 22/25 := by
    unfold weightedConf
    linarith
  refine ⟨hm7, hw, ?_⟩
  unfold calculateConfidence pyRoundN
  set y := min (max (2/5 + weightedConf a * (1 - 2/5)) (2/5)) 1 with hydef
  have hy : y ≤ 116/125 := by
    refine le_trans (min_le_left _ _) ?_
    refine max_le ?_ (by norm_num)
    linarith
  have h93 : y * 10 ^ 2 ≤ ((93:ℤ) : ℚ) := by
    push_cast
    linarith
  have hr := roundHalfEven_le_intCast _ 93 h93
  have h2 : (roundHalfEven (y * 10 ^ 2) : ℚ) ≤ ((93:ℤ) : ℚ) :=
    Int.cast_le.mpr hr
  rw [div_le_iff₀ (by norm_num : (0:ℚ) < 10 ^ 2)]
  push_cast at h2
  exact le_trans h2 (by norm_num)

/-- C10 witness: the theorem applied at the maximal consistent input (full
market score, unanimous positive sentiment, Low risk), whose confidence is
exactly 0.93. -/
theorem c10_witness :
    calculateConfidence ⟨⟨true, true, 100, true⟩, ⟨true, 5, 0, 5⟩,
      ⟨true, "Low"⟩⟩ ≤ 93/100 :=
  (c10_confidence_cap ⟨⟨true, true, 100, true⟩, ⟨true, 5, 0, 5⟩,
    ⟨true, "Low"⟩⟩ (by norm_num [max_def])).2.2

end FIS
